import Mathlib

/-!
# Verification of the qbo-mcp server core

A shallow embedding, in Lean 4, of the core of the qbo-mcp TypeScript server:
the upstream QuickBooks client (`src/utils/client.ts`), the navigation state
machine and tool router (`src/index.ts`), the gateway credential extraction
(`startHttpTransport` in `src/index.ts`), and the invoice list-filter builder
(`handleInvoiceTool` in the invoices domain module).

Conventions of the embedding:
* TypeScript strings are Lean `String`; numbers that are used as integers
  (HTTP status codes, pagination positions and sizes) are `Nat`.
* A value that can be `undefined` in TypeScript is an `Option`; JavaScript
  string truthiness (`undefined` and `""` are falsy) is modelled explicitly
  where the source relies on it.
* Code that can throw returns `Except String` with the thrown message.
* The `while` loop of the paginated fetch is modelled by structural recursion
  on a fuel argument bounding the number of loop iterations; theorems are
  stated at every sufficient fuel.
-/

/-! ## Constants of `src/utils/client.ts` -/

def QBO_API_BASE : String := "https://quickbooks.api.intuit.com/v3/company"

def MINOR_VERSION : String := "73"

def MAX_PAGE_SIZE : Nat := 1000

/-- `QboClientConfig` from `src/utils/client.ts`: the credential pair a client
instance is constructed with. -/
structure QboClientConfig where
  accessToken : String
  realmId : String
deriving DecidableEq, Repr

/-! ## Paginated fetch (`QboClient.getPaginated`, `src/utils/client.ts` 118–152)

One round of the loop issues `query(baseSql ++ " STARTPOSITION n MAXRESULTS m")`
and inspects the response envelope: the source checks `response.QueryResponse`,
then takes the first array-valued field of it (the entity key varies by
entity type).  `QueryResponseShape` records exactly what that inspection can
see: no `QueryResponse` field at all, or a `QueryResponse` with no
array-valued field, or the first array-valued field's contents. -/

inductive QueryResponseShape (α : Type) : Type where
  | missing : QueryResponseShape α
  | found : Option (List α) → QueryResponseShape α
deriving DecidableEq, Repr

/-- One pagination request of `getPaginated`: the `STARTPOSITION` and
`MAXRESULTS` values interpolated into the SQL of that round. -/
structure PageRequest where
  startPosition : Nat
  maxResults : Nat
deriving DecidableEq, Repr

/-- The SQL string built for one round, exactly the template literal
`` `${baseSql} STARTPOSITION ${startPosition} MAXRESULTS ${maxResults}` ``. -/
def renderPageSql (baseSql : String) (r : PageRequest) : String :=
  baseSql ++ " STARTPOSITION " ++ toString r.startPosition ++ " MAXRESULTS "
    ++ toString r.maxResults

/-- The `while (hasMore)` loop of `getPaginated`.  `fetch p` is the upstream's
answer to the round whose `STARTPOSITION` is `p` (the base SQL is fixed for
the whole loop, so a round is determined by its start position).  Returns the
requests issued in order and `allItems`.  `fuel` bounds the number of loop
iterations; every theorem below holds for all sufficient fuel. -/
def getPaginatedAux {α : Type} (fetch : Nat → QueryResponseShape α)
    (maxResults : Nat) : Nat → Nat → List PageRequest × List α
  | _, 0 => ([], [])
  | startPosition, fuel + 1 =>
    let req : PageRequest := ⟨startPosition, maxResults⟩
    match fetch startPosition with
    | .missing => ([req], [])
    | .found none => ([req], [])
    | .found (some entities) =>
      if entities.length > 0 then
        if entities.length < maxResults then
          ([req], entities)
        else
          let rest := getPaginatedAux fetch maxResults (startPosition + maxResults) fuel
          (req :: rest.1, entities ++ rest.2)
      else
        ([req], [])

/-- `getPaginated(baseSql, maxResults)`: the loop starts at `startPosition = 1`. -/
def getPaginated {α : Type} (fetch : Nat → QueryResponseShape α)
    (maxResults : Nat) (fuel : Nat) : List PageRequest × List α :=
  getPaginatedAux fetch maxResults 1 fuel

/-- `getPaginated(baseSql)` with the `maxResults` parameter omitted: the
source's default parameter value is `MAX_PAGE_SIZE`. -/
def getPaginatedDefault {α : Type} (fetch : Nat → QueryResponseShape α)
    (fuel : Nat) : List PageRequest × List α :=
  getPaginated fetch MAX_PAGE_SIZE fuel

/-- Mock upstream serving batches of sizes 1000, 1000, 400 at start positions
1, 1001, 2001, and an empty batch elsewhere; items are numbered consecutively
so concatenation order is visible. -/
def mockThreeBatches : Nat → QueryResponseShape Nat := fun p =>
  if p = 1 then .found (some (List.range' 1 1000))
  else if p = 1001 then .found (some (List.range' 1001 1000))
  else if p = 2001 then .found (some (List.range' 2001 400))
  else .found (some [])

/-- Every request issued by the pagination loop carries the `maxResults` the
loop was called with, verbatim. -/
theorem getPaginatedAux_maxResults_eq {α : Type} (fetch : Nat → QueryResponseShape α)
    (m s fuel : Nat) :
    ∀ r ∈ (getPaginatedAux fetch m s fuel).1, r.maxResults = m := by
  induction fuel generalizing s with
  | zero => intro r hr; simp [getPaginatedAux] at hr
  | succ n ih =>
    intro r hr
    simp only [getPaginatedAux] at hr
    rcases hfetch : fetch s with _ | es
    · rw [hfetch] at hr; simp at hr; simp [hr]
    · rcases es with _ | es
      · rw [hfetch] at hr; simp at hr; simp [hr]
      · rw [hfetch] at hr
        by_cases hlen : es.length > 0
        · by_cases hlt : es.length < m
          · simp [hlen, hlt] at hr; simp [hr]
          · simp [hlen, hlt] at hr
            rcases hr with hr | hr
            · simp [hr]
            · exact ih _ r hr
        · simp [hlen] at hr; simp [hr]

/-- Start positions of the issued requests form the arithmetic progression
`s, s + m, s + 2m, …`. -/
theorem getPaginatedAux_startPosition_eq {α : Type} (fetch : Nat → QueryResponseShape α)
    (m s fuel : Nat) :
    ∀ i r, (getPaginatedAux fetch m s fuel).1.get? i = some r →
      r.startPosition = s + m * i := by
  induction fuel generalizing s with
  | zero => intro i r hr; simp [getPaginatedAux] at hr
  | succ n ih =>
    intro i r hr
    simp only [getPaginatedAux] at hr
    rcases hfetch : fetch s with _ | es
    · rw [hfetch] at hr
      rcases i with _ | i
      · simp only [List.get?_cons_zero, Option.some.injEq] at hr
        subst hr; simp
      · simp at hr
    · rcases es with _ | es
      · rw [hfetch] at hr
        rcases i with _ | i
        · simp only [List.get?_cons_zero, Option.some.injEq] at hr
          subst hr; simp
        · simp at hr
      · rw [hfetch] at hr
        by_cases hlen : es.length > 0
        · by_cases hlt : es.length < m
          · simp only [if_pos hlen, if_pos hlt] at hr
            rcases i with _ | i
            · simp only [List.get?_cons_zero, Option.some.injEq] at hr
              subst hr; simp
            · simp at hr
          · simp only [if_pos hlen, if_neg hlt] at hr
            rcases i with _ | i
            · simp only [List.get?_cons_zero, Option.some.injEq] at hr
              subst hr; simp
            · simp only [List.get?_cons_succ] at hr
              have := ih (s + m) i r hr
              rw [this]; ring
        · simp only [if_neg hlen] at hr
          rcases i with _ | i
          · simp only [List.get?_cons_zero, Option.some.injEq] at hr
            subst hr; simp
          · simp at hr

/-- A round of the loop whose batch is non-empty and of full page size pushes
the batch and continues at `startPosition + maxResults`. -/
theorem getPaginatedAux_round_continue {α : Type} (fetch : Nat → QueryResponseShape α)
    (m s fuel : Nat) (es : List α) (hf : fetch s = .found (some es))
    (h1 : 0 < es.length) (h2 : ¬ es.length < m) :
    getPaginatedAux fetch m s (fuel + 1)
      = (⟨s, m⟩ :: (getPaginatedAux fetch m (s + m) fuel).1,
         es ++ (getPaginatedAux fetch m (s + m) fuel).2) := by
  simp only [getPaginatedAux, hf]
  rw [if_pos h1, if_neg h2]

/-- A round whose batch is non-empty but strictly shorter than the page size
pushes the batch and stops. -/
theorem getPaginatedAux_round_last {α : Type} (fetch : Nat → QueryResponseShape α)
    (m s fuel : Nat) (es : List α) (hf : fetch s = .found (some es))
    (h1 : 0 < es.length) (h2 : es.length < m) :
    getPaginatedAux fetch m s (fuel + 1) = ([⟨s, m⟩], es) := by
  simp only [getPaginatedAux, hf]
  rw [if_pos h1, if_pos h2]

/-- The three mock batches concatenate, in fetch order, to the items numbered
1 through 2400. -/
theorem range'_batches_concat :
    List.range' 1 1000 ++ (List.range' 1001 1000 ++ List.range' 2001 400)
      = List.range' 1 2400 := by
  rw [show (2001 : Nat) = 1001 + 1000 from rfl, List.range'_append_1]
  rw [show (1001 : Nat) = 1 + 1000 from rfl, List.range'_append_1]

/-- C2: the paginated fetch issues rounds whose `STARTPOSITION` starts at 1 and
is incremented by the page size each round; it stops when a round's batch is
strictly shorter than the page size, or when a round has no `QueryResponse`
field, no array-valued field, or an empty batch; it concatenates batches in
fetch order without deduplication.  In particular, for upstream batches of
sizes 1000, 1000, 400 at page size 1000 (and at any sufficient loop fuel) it
issues exactly 3 requests with `STARTPOSITION` values 1, 1001, 2001 and
returns all 2400 items in order. -/
theorem getPaginated_protocol : ∀ k : Nat,
    (getPaginated mockThreeBatches 1000 (k + 3)
        = ([⟨1, 1000⟩, ⟨1001, 1000⟩, ⟨2001, 1000⟩], List.range' 1 2400))
    ∧ ((getPaginated mockThreeBatches 1000 (k + 3)).1.map PageRequest.startPosition
        = [1, 1001, 2001])
    ∧ ((getPaginated mockThreeBatches 1000 (k + 3)).1.length = 3
        ∧ (getPaginated mockThreeBatches 1000 (k + 3)).2.length = 2400)
    ∧ ((getPaginated mockThreeBatches 1000 (k + 3)).1.map
          (renderPageSql "SELECT * FROM Invoice")
        = ["SELECT * FROM Invoice STARTPOSITION 1 MAXRESULTS 1000",
           "SELECT * FROM Invoice STARTPOSITION 1001 MAXRESULTS 1000",
           "SELECT * FROM Invoice STARTPOSITION 2001 MAXRESULTS 1000"])
    ∧ (∀ fetch : Nat → QueryResponseShape Nat, ∀ m fuel i r,
        (getPaginated fetch m fuel).1.get? i = some r → r = ⟨1 + m * i, m⟩)
    ∧ (getPaginated (fun _ => (.missing : QueryResponseShape Nat)) 1000 (k + 1)
        = ([⟨1, 1000⟩], []))
    ∧ (getPaginated (fun _ => (.found none : QueryResponseShape Nat)) 1000 (k + 1)
        = ([⟨1, 1000⟩], []))
    ∧ (getPaginated (fun _ => (.found (some ([] : List Nat)))) 1000 (k + 1)
        = ([⟨1, 1000⟩], []))
    ∧ (getPaginated (fun _ => (.found (some (List.range' 1 7)))) 100 (k + 1)
        = ([⟨1, 100⟩], List.range' 1 7)) := by
  intro k
  have hmain : getPaginated mockThreeBatches 1000 (k + 3)
      = ([⟨1, 1000⟩, ⟨1001, 1000⟩, ⟨2001, 1000⟩], List.range' 1 2400) := by
    show getPaginatedAux mockThreeBatches 1000 1 (k + 2 + 1) = _
    rw [getPaginatedAux_round_continue mockThreeBatches 1000 1 (k + 2)
      (List.range' 1 1000) rfl (by simp) (by simp)]
    rw [show k + 2 = k + 1 + 1 from rfl]
    rw [getPaginatedAux_round_continue mockThreeBatches 1000 1001 (k + 1)
      (List.range' 1001 1000) rfl (by simp) (by simp)]
    rw [getPaginatedAux_round_last mockThreeBatches 1000 2001 k
      (List.range' 2001 400) rfl (by simp) (by simp)]
    rw [range'_batches_concat]
  refine ⟨hmain, ?_, ?_, ?_, ?_, rfl, rfl, rfl, rfl⟩
  · rw [hmain]; rfl
  · rw [hmain]; exact ⟨rfl, by simp⟩
  · rw [hmain]; rfl
  · intro fetch m fuel i r hr
    have hs := getPaginatedAux_startPosition_eq fetch m 1 fuel i r hr
    have hmem : r ∈ (getPaginated fetch m fuel).1 := by
      rcases List.get?_eq_some.mp hr with ⟨hlt, hget⟩
      exact hget ▸ List.get_mem _ _ _
    have hm := getPaginatedAux_maxResults_eq fetch m 1 fuel r hmem
    cases r
    simp only [PageRequest.mk.injEq]
    exact ⟨hs, hm⟩

/-- Witness for the hypothesis-bearing conjunct of `getPaginated_protocol`:
with page size 1 every batch of size 1 is a full page, so the second request
of the loop starts at position `1 + 1 * 1 = 2`. -/
theorem getPaginated_protocol_witness :
    (⟨2, 1⟩ : PageRequest) = ⟨1 + 1 * 1, 1⟩ :=
  (getPaginated_protocol 0).2.2.2.2.1 (fun _ => .found (some [0])) 1 2 1 ⟨2, 1⟩
    (by decide)

/-- C3, counterexample: the paginated fetch's page size defaults to
`MAX_PAGE_SIZE = 1000`, not 100, and no hard cap is applied: a caller-supplied
page size of 5000 reaches the issued request (and its rendered SQL) verbatim. -/
theorem getPaginated_no_default_100_no_cap :
    ((getPaginatedDefault (fun _ => (.found (some ([] : List Nat)))) 1).1
        = [⟨1, 1000⟩])
    ∧ (1000 : Nat) ≠ 100
    ∧ ((getPaginated (fun _ => (.found (some ([] : List Nat)))) 5000 1).1
        = [⟨1, 5000⟩])
    ∧ renderPageSql "SELECT * FROM Customer" ⟨1, 5000⟩
        = "SELECT * FROM Customer STARTPOSITION 1 MAXRESULTS 5000"
    ∧ 5000 > 1000 :=
  ⟨rfl, by decide, rfl, rfl, by decide⟩

/-- C3 (amended): the paginated fetch's page size defaults to
`MAX_PAGE_SIZE = 1000` when the caller does not supply one, and no cap is
applied: every issued request carries exactly the caller-supplied page size,
whatever it is. -/
theorem getPaginated_default_is_max_page_size :
    MAX_PAGE_SIZE = 1000
    ∧ (∀ fetch : Nat → QueryResponseShape Nat, ∀ fuel,
        getPaginatedDefault fetch fuel = getPaginated fetch 1000 fuel)
    ∧ (∀ fetch : Nat → QueryResponseShape Nat, ∀ m fuel r,
        r ∈ (getPaginated fetch m fuel).1 → r.maxResults = m) :=
  ⟨rfl, fun _ _ => rfl,
    fun fetch m fuel r hr => getPaginatedAux_maxResults_eq fetch m 1 fuel r hr⟩

/-- Witness for `getPaginated_default_is_max_page_size`: the request issued for
caller-supplied page size 5000 carries page size 5000. -/
theorem getPaginated_default_is_max_page_size_witness :
    (⟨1, 5000⟩ : PageRequest).maxResults = 5000 :=
  getPaginated_default_is_max_page_size.2.2 (fun _ => .found (some [])) 5000 1
    ⟨1, 5000⟩ (by decide)

/-! ## One authenticated request (`QboClient.request`, `src/utils/client.ts` 46–86)

The HTTP exchange is modelled by passing the upstream's `HttpResponse` as an
argument.  The function returns the list of HTTP requests it sends (built from
the client's one credential pair) together with the outcome the caller sees:
`.error` with the thrown message, or `.ok` with `none` for a 204 no-content
response and `some` of the response body otherwise (JSON parsing is treated as
the identity on the body text — the claims do not depend on it). -/

/-- The upstream's answer to one HTTP request: status code and body text. -/
structure HttpResponse where
  status : Nat
  body : String
deriving DecidableEq, Repr

/-- `Response.ok` of the fetch API: status in the range 200–299. -/
def responseOk (status : Nat) : Bool := 200 ≤ status && status < 300

/-- The thrown message for a non-2xx response, exactly the template literal
`` `QBO API error ${method} /${path} (${response.status}): ${responseBody}` ``. -/
def qboApiErrorMsg (method path : String) (status : Nat) (body : String) : String :=
  "QBO API error " ++ method ++ " /" ++ path ++ " (" ++ toString status ++ "): "
    ++ body

/-- One HTTP request as handed to `fetch`: method, URL pieces and headers.
The query string is kept structured (`URLSearchParams` percent-encoding is not
modelled; no claim depends on it). -/
structure SentRequest where
  method : String
  baseUrl : String
  path : String
  queryParams : List (String × String)
  authorization : String
  contentType : String
  accept : String
  requestBody : Option String
deriving DecidableEq, Repr

/-- `this.baseUrl` of the client constructor:
`` `${QBO_API_BASE}/${config.realmId}` ``. -/
def clientBaseUrl (config : QboClientConfig) : String :=
  QBO_API_BASE ++ "/" ++ config.realmId

/-- `QboClient.request`: builds the one authenticated request, then maps the
response: non-2xx throws `qboApiErrorMsg`, 204 yields `null`, otherwise the
parsed body. -/
def QboClient.request (config : QboClientConfig) (method path : String)
    (params : List (String × String)) (body : Option String)
    (response : HttpResponse) : List SentRequest × Except String (Option String) :=
  let sent : SentRequest :=
    { method := method
      baseUrl := clientBaseUrl config
      path := path
      queryParams := ("minorversion", MINOR_VERSION) :: params
      authorization := "Bearer " ++ config.accessToken
      contentType := "application/json"
      accept := "application/json"
      requestBody := body }
  if responseOk response.status = false then
    ([sent], .error (qboApiErrorMsg method path response.status response.body))
  else if response.status = 204 then
    ([sent], .ok none)
  else
    ([sent], .ok (some response.body))

/-- C8: every call of `QboClient.request` sends exactly one HTTP request, whose
bearer token and base URL come from the client's own credential pair — in
particular it is never retried, with any credential; a non-2xx response
produces an error carrying the method, path, status and response body; a 204
no-content response yields a null result, not an error. -/
theorem qboClient_request_spec :
    ∀ (config : QboClientConfig) (method path : String)
      (params : List (String × String)) (body : Option String)
      (response : HttpResponse),
    ((QboClient.request config method path params body response).1
        = [{ method := method
             baseUrl := QBO_API_BASE ++ "/" ++ config.realmId
             path := path
             queryParams := ("minorversion", "73") :: params
             authorization := "Bearer " ++ config.accessToken
             contentType := "application/json"
             accept := "application/json"
             requestBody := body }])
    ∧ (responseOk response.status = false →
        (QboClient.request config method path params body response).2
          = .error (qboApiErrorMsg method path response.status response.body))
    ∧ (response.status = 204 →
        (QboClient.request config method path params body response).2
          = .ok none) := by
  intro config method path params body response
  refine ⟨?_, ?_, ?_⟩
  · unfold QboClient.request
    split
    · rfl
    · split <;> rfl
  · intro h
    unfold QboClient.request
    rw [if_pos h]
  · intro h
    unfold QboClient.request
    rw [if_neg (by rw [h]; decide), if_pos h]

/-- Witness for `qboClient_request_spec`: a 400 response maps to the error
message carrying method, path, status and body, and a 204 response maps to a
null result. -/
theorem qboClient_request_spec_witness :
    ((QboClient.request ⟨"tok", "realm"⟩ "GET" "invoice/7" [] none ⟨400, "bad request"⟩).2
        = .error (qboApiErrorMsg "GET" "invoice/7" 400 "bad request"))
    ∧ ((QboClient.request ⟨"tok", "realm"⟩ "POST" "invoice/7/send" [] none ⟨204, ""⟩).2
        = .ok none) :=
  ⟨(qboClient_request_spec ⟨"tok", "realm"⟩ "GET" "invoice/7" [] none
      ⟨400, "bad request"⟩).2.1 (by decide),
   (qboClient_request_spec ⟨"tok", "realm"⟩ "POST" "invoice/7/send" [] none
      ⟨204, ""⟩).2.2 rfl⟩

/-! ## The shared-singleton credential race (`src/index.ts` 296–324 and
`src/utils/client.ts` 158–190)

In gateway mode, the handler of an inbound `/mcp` request synchronously runs
`resetClient()` and writes the call's header credentials into the process-wide
environment (`QBO_ACCESS_TOKEN` / `QBO_REALM_ID`); the call's tool dispatch
later (asynchronously) runs `getClient()`, which lazily rebuilds the shared
singleton from whatever the environment holds at that moment, and the upstream
request is sent with that client's credential.  Concurrent calls therefore
interleave their environment writes and client reads on shared state.  The
model below makes the shared state and the two per-call phases explicit and
runs an arbitrary interleaving. -/

/-- The process-wide mutable state: the two credential environment variables
and the lazy `_client` singleton. -/
structure SingletonState where
  envAccessToken : Option String
  envRealmId : Option String
  clientInstance : Option QboClientConfig
deriving DecidableEq, Repr

/-- `resetClient()` from `src/utils/client.ts`: clears the singleton. -/
def resetClient (s : SingletonState) : SingletonState :=
  { s with clientInstance := none }

/-- The synchronous gateway phase of one `/mcp` request
(`src/index.ts` 320–323): `resetClient()` then the two environment writes. -/
def gatewayHeaderPhase (accessToken realmId : String) (s : SingletonState) :
    SingletonState :=
  { resetClient s with
      envAccessToken := some accessToken
      envRealmId := some realmId }

/-- The thrown message when the environment lacks credentials. -/
def missingEnvMsg : String :=
  "QBO_ACCESS_TOKEN and QBO_REALM_ID environment variables are required. "
    ++ "Provide a pre-authenticated OAuth2 access token and company realm ID."

/-- `getClient()` from `src/utils/client.ts`: returns the cached singleton, or
builds it from the current environment (empty and unset values are both falsy
in the source's check). -/
def getClient (s : SingletonState) : SingletonState × Except String QboClientConfig :=
  match s.clientInstance with
  | some c => (s, .ok c)
  | none =>
    match s.envAccessToken, s.envRealmId with
    | some t, some r =>
      if t.isEmpty || r.isEmpty then (s, .error missingEnvMsg)
      else ({ s with clientInstance := some ⟨t, r⟩ }, .ok ⟨t, r⟩)
    | _, _ => (s, .error missingEnvMsg)

/-- The two concurrent inbound calls of the race. -/
inductive CallId where
  | a : CallId
  | b : CallId
deriving DecidableEq, Repr

/-- One atomic step of the event loop: a call's synchronous gateway header
phase, or a call's later `getClient()`-and-send step. -/
inductive RaceEvent where
  | headerPhase : CallId → RaceEvent
  | upstreamSend : CallId → RaceEvent
deriving DecidableEq, Repr

/-- Run an interleaving of the two calls' phases over the shared singleton
state, recording for each `upstreamSend` step which credential that call's
upstream request was sent with. -/
def runRace (credOf : CallId → QboClientConfig) :
    List RaceEvent → SingletonState →
      SingletonState × List (CallId × Except String QboClientConfig)
  | [], s => (s, [])
  | .headerPhase c :: evs, s =>
    runRace credOf evs
      (gatewayHeaderPhase (credOf c).accessToken (credOf c).realmId s)
  | .upstreamSend c :: evs, s =>
    let step := getClient s
    let rest := runRace credOf evs step.1
    (rest.1, (c, step.2) :: rest.2)

/-- Call A's credential pair in the race scenario. -/
def credA : QboClientConfig := ⟨"token-A", "realm-A"⟩

/-- Call B's credential pair in the race scenario. -/
def credB : QboClientConfig := ⟨"token-B", "realm-B"⟩

/-- The racy interleaving: both gateway header phases run before either call's
tool dispatch reaches `getClient()`. -/
def raceSchedule : List RaceEvent :=
  [.headerPhase .a, .headerPhase .b, .upstreamSend .a, .upstreamSend .b]

/-- C1: under the per-request (gateway) credential policy the code leaks one
call's credentials into another: in the interleaving where both calls'
header phases precede their upstream sends, call A's upstream request is sent
with call B's credential pair (and so is call B's), although the two calls
carried distinct header pairs. -/
theorem gateway_credential_race :
    ((runRace (fun c => match c with | .a => credA | .b => credB)
        raceSchedule ⟨none, none, none⟩).2
      = [(.a, .ok credB), (.b, .ok credB)])
    ∧ credB ≠ credA := by
  refine ⟨rfl, ?_⟩
  intro h
  simp [credA, credB, QboClientConfig.mk.injEq] at h

/-! ## Navigation state machine and tool router (`src/index.ts` 66–246)

`state.currentDomain` has TypeScript type `Domain | null`, but `qbo_navigate`
stores its caller-supplied argument without validating it, so at runtime the
field can hold any string: the embedding uses `Option String`.  Tool
descriptors are identified by their names (the listing maps descriptors to
names; the claims are about which operations are present). -/

/-- The five domains (`type Domain` in `src/index.ts`). -/
inductive Domain where
  | customers : Domain
  | invoices : Domain
  | expenses : Domain
  | payments : Domain
  | reports : Domain
deriving DecidableEq, Repr

/-- The string form of each domain name. -/
def domainName : Domain → String
  | .customers => "customers"
  | .invoices => "invoices"
  | .expenses => "expenses"
  | .payments => "payments"
  | .reports => "reports"

/-- Names of `customerTools` (`src/domains/customers.ts`). -/
def customerToolNames : List String :=
  ["qbo_customers_list", "qbo_customers_get", "qbo_customers_create",
   "qbo_customers_search"]

/-- Names of `invoiceTools` (invoices domain module). -/
def invoiceToolNames : List String :=
  ["qbo_invoices_list", "qbo_invoices_get", "qbo_invoices_create",
   "qbo_invoices_send"]

/-- Names of `expenseTools` (`src/domains/expenses.ts`). -/
def expenseToolNames : List String :=
  ["qbo_expenses_list_purchases", "qbo_expenses_list_bills",
   "qbo_expenses_get_purchase", "qbo_expenses_get_bill"]

/-- Names of `paymentTools` (`src/domains/payments.ts`). -/
def paymentToolNames : List String :=
  ["qbo_payments_list", "qbo_payments_get", "qbo_payments_create"]

/-- Names of `reportTools` (reports domain module). -/
def reportToolNames : List String :=
  ["qbo_reports_profit_and_loss", "qbo_reports_balance_sheet",
   "qbo_reports_aged_receivables", "qbo_reports_aged_payables",
   "qbo_reports_customer_sales"]

/-- The descriptor names owned by each domain. -/
def domainToolNames : Domain → List String
  | .customers => customerToolNames
  | .invoices => invoiceToolNames
  | .expenses => expenseToolNames
  | .payments => paymentToolNames
  | .reports => reportToolNames

/-- `getDomainTools` (`src/index.ts` 80–93) as it behaves at runtime: the
`switch` matches the five domain strings; any other value of
`state.currentDomain` falls through and the function returns `undefined`. -/
def getDomainTools (domain : String) : Option (List String) :=
  if domain = "customers" then some customerToolNames
  else if domain = "invoices" then some invoiceToolNames
  else if domain = "expenses" then some expenseToolNames
  else if domain = "payments" then some paymentToolNames
  else if domain = "reports" then some reportToolNames
  else none

/-- The message of the `TypeError` raised when the tools of an unknown domain
value are used (`getDomainTools` returned `undefined` and the handler spread
or mapped it). -/
def undefinedToolsMsg : String :=
  "TypeError: domain tools are undefined"

/-- The `ListToolsRequestSchema` handler (`src/index.ts` 157–170): at root it
returns only `qbo_navigate`; in a domain it returns `qbo_back` followed by the
domain's tools.  If `state.currentDomain` holds a string outside the five
domains, `getDomainTools` yields `undefined` and spreading it throws — the
listing request faults instead of returning a list. -/
def listTools : Option String → Except String (List String)
  | none => .ok ["qbo_navigate"]
  | some d =>
    match getDomainTools d with
    | some ts => .ok ("qbo_back" :: ts)
    | none => .error undefinedToolsMsg

/-- JavaScript `String.prototype.startsWith`, modelled on the character
lists of the two strings. -/
def strStartsWith (s p : String) : Bool := p.data.isPrefixOf s.data

/-- The prefix-routing chain of the `CallToolRequestSchema` handler
(`src/index.ts` 213–227): the first matching domain namespace, if any. -/
def routedDomain (name : String) : Option Domain :=
  if strStartsWith name "qbo_customers_" then some .customers
  else if strStartsWith name "qbo_invoices_" then some .invoices
  else if strStartsWith name "qbo_expenses_" then some .expenses
  else if strStartsWith name "qbo_payments_" then some .payments
  else if strStartsWith name "qbo_reports_" then some .reports
  else none

/-- A tool-call result as returned to the caller: the text content and the
`isError` flag (absent in the source means `false`). -/
structure CallResult where
  text : String
  isError : Bool
deriving DecidableEq, Repr

/-- `Array.prototype.join(sep)`. -/
def joinStr (sep : String) : List String → String
  | [] => ""
  | [x] => x
  | x :: y :: xs => x ++ sep ++ joinStr sep (y :: xs)

/-- The confirmation text of `qbo_back`. -/
def backConfirmationText : String :=
  "Returned to domain selection. Use qbo_navigate to select a domain: "
    ++ "customers, invoices, expenses, payments, reports"

/-- The body of the `CallToolRequestSchema` handler inside its `try`
(`src/index.ts` 178–238).  `handlers d name` is the outcome of the awaited
domain dispatch (`handleCustomerTool` … `handleReportTool`), which may itself
throw; `navArg` is `args.domain` as read by the `qbo_navigate` branch.
Returns the state after the call and either the returned result or the thrown
message.  Note the navigate branch assigns `state.currentDomain` before
touching the domain's tools, so the assignment survives a throw. -/
def callToolBody (handlers : Domain → String → Except String CallResult)
    (st : Option String) (name navArg : String) :
    Option String × Except String CallResult :=
  if name = "qbo_navigate" then
    let st1 := some navArg
    match getDomainTools navArg with
    | some ts =>
      (st1, .ok ⟨"Navigated to " ++ navArg ++ " domain. Available tools: "
        ++ joinStr ", " ts, false⟩)
    | none => (st1, .error undefinedToolsMsg)
  else if name = "qbo_back" then
    (none, .ok ⟨backConfirmationText, false⟩)
  else
    match routedDomain name with
    | some d => (st, handlers d name)
    | none =>
      (st, .ok ⟨"Unknown tool: " ++ name
        ++ ". Use qbo_navigate to select a domain first.", true⟩)

/-- The full `CallToolRequestSchema` handler: the `catch` converts anything
thrown during dispatch into a failed result with a human-readable message. -/
def callTool (handlers : Domain → String → Except String CallResult)
    (st : Option String) (name navArg : String) : Option String × CallResult :=
  match callToolBody handlers st name navArg with
  | (st1, .ok r) => (st1, r)
  | (st1, .error e) => (st1, ⟨"Error: " ++ e, true⟩)

/-- C5: the operation listing is a pure function of the navigation state — at
root exactly the navigate operation, in a domain exactly the back operation
followed by the domain's descriptors; after `select(d1)` then `select(d2)` the
listing is exactly back plus `d2`'s descriptors, and for `d1 ≠ d2` none of
`d1`'s operations appear in it. -/
theorem listing_follows_navigation :
    (listTools none = .ok ["qbo_navigate"])
    ∧ (∀ d : Domain,
        listTools (some (domainName d)) = .ok ("qbo_back" :: domainToolNames d))
    ∧ (∀ (handlers : Domain → String → Except String CallResult)
        (d1 d2 : Domain) (st : Option String),
        listTools ((callTool handlers
            ((callTool handlers st "qbo_navigate" (domainName d1)).1)
            "qbo_navigate" (domainName d2)).1)
          = .ok ("qbo_back" :: domainToolNames d2))
    ∧ (∀ d1 d2 : Domain, d1 ≠ d2 →
        (domainToolNames d1).inter ("qbo_back" :: domainToolNames d2) = []) := by
  refine ⟨rfl, ?_, ?_, ?_⟩
  · intro d; cases d <;> rfl
  · intro handlers d1 d2 st
    cases d1 <;> cases d2 <;> rfl
  · intro d1 d2 h
    cases d1 <;> cases d2 <;> first | exact absurd rfl h | decide

/-- Witness for `listing_follows_navigation`: after moving from the customers
domain to the invoices domain, no customers operation is listed. -/
theorem listing_follows_navigation_witness :
    (domainToolNames .customers).inter ("qbo_back" :: domainToolNames .invoices)
      = [] :=
  listing_follows_navigation.2.2.2 .customers .invoices (by decide)

/-- C6: `back()` from `Root` is an idempotent no-op — the state stays `Root`
(`null`), the listing afterwards is still exactly the navigate operation, and
a second `back()` returns the same state and the same result as the first. -/
theorem back_from_root_noop :
    (∀ (handlers : Domain → String → Except String CallResult) (navArg : String),
        callTool handlers none "qbo_back" navArg
          = (none, ⟨backConfirmationText, false⟩))
    ∧ (∀ (handlers : Domain → String → Except String CallResult)
        (st : Option String) (navArg : String),
        listTools ((callTool handlers st "qbo_back" navArg).1)
          = .ok ["qbo_navigate"])
    ∧ (∀ (handlers : Domain → String → Except String CallResult)
        (st : Option String) (navArg : String),
        callTool handlers ((callTool handlers st "qbo_back" navArg).1)
            "qbo_back" navArg
          = callTool handlers st "qbo_back" navArg) :=
  ⟨fun _ _ => rfl, fun _ _ _ => rfl, fun _ _ _ => rfl⟩

/-- C7: a call whose name matches neither navigation operation nor any domain
prefix produces a structured result marked failed rather than raising; any
error thrown during dispatch — by a domain handler or by the navigate branch
itself — is caught at the dispatch boundary and converted into a failed
result with a human-readable message. -/
theorem dispatch_errors_are_structured :
    (∀ (handlers : Domain → String → Except String CallResult)
        (st : Option String) (name navArg : String),
        name ≠ "qbo_navigate" → name ≠ "qbo_back" → routedDomain name = none →
        (callTool handlers st name navArg).2
          = ⟨"Unknown tool: " ++ name
              ++ ". Use qbo_navigate to select a domain first.", true⟩)
    ∧ (∀ (handlers : Domain → String → Except String CallResult)
        (st : Option String) (name navArg : String) (d : Domain) (e : String),
        name ≠ "qbo_navigate" → name ≠ "qbo_back" → routedDomain name = some d →
        handlers d name = .error e →
        (callTool handlers st name navArg).2 = ⟨"Error: " ++ e, true⟩)
    ∧ (∀ (handlers : Domain → String → Except String CallResult)
        (st : Option String) (navArg : String),
        getDomainTools navArg = none →
        (callTool handlers st "qbo_navigate" navArg).2
          = ⟨"Error: " ++ undefinedToolsMsg, true⟩) := by
  refine ⟨?_, ?_, ?_⟩
  · intro handlers st name navArg h1 h2 h3
    simp [callTool, callToolBody, h1, h2, h3]
  · intro handlers st name navArg d e h1 h2 h3 h4
    simp [callTool, callToolBody, h1, h2, h3, h4]
  · intro handlers st navArg h
    simp [callTool, callToolBody, h]

/-- Domain handlers that throw on every dispatch, for exercising the catch
boundary. -/
def boomHandlers : Domain → String → Except String CallResult :=
  fun _ _ => .error "boom"

/-- Witness for `dispatch_errors_are_structured`: an unknown name yields a
failed result naming it; a throwing invoices dispatch and a navigate call with
an invalid domain both surface as failed results with the thrown message. -/
theorem dispatch_errors_are_structured_witness :
    ((callTool boomHandlers none "totally_unknown" "").2
        = ⟨"Unknown tool: totally_unknown. Use qbo_navigate to select a domain first.",
           true⟩)
    ∧ ((callTool boomHandlers none "qbo_invoices_list" "").2
        = ⟨"Error: boom", true⟩)
    ∧ ((callTool boomHandlers none "qbo_navigate" "bogus").2
        = ⟨"Error: " ++ undefinedToolsMsg, true⟩) :=
  ⟨dispatch_errors_are_structured.1 boomHandlers none "totally_unknown" ""
      (by decide) (by decide) (by decide),
   dispatch_errors_are_structured.2.1 boomHandlers none "qbo_invoices_list" ""
      .invoices "boom" (by decide) (by decide) (by decide) rfl,
   dispatch_errors_are_structured.2.2 boomHandlers none "bogus" (by decide)⟩

/-- C10: `qbo_navigate` stores its caller-supplied argument as the current
state without validating it: for any argument outside the five domains the
state is still mutated to that value, the mutated state persists although the
call returns a failed result, and the subsequent listing query faults (the
domain-tools lookup yields no list) instead of returning a structured
listing. -/
theorem navigate_stores_unvalidated_domain :
    ∀ (handlers : Domain → String → Except String CallResult)
      (st : Option String) (navArg : String),
      navArg ∉ ["customers", "invoices", "expenses", "payments", "reports"] →
      ((callTool handlers st "qbo_navigate" navArg).1 = some navArg
        ∧ (callTool handlers st "qbo_navigate" navArg).2
            = ⟨"Error: " ++ undefinedToolsMsg, true⟩
        ∧ (callTool handlers st "qbo_navigate" navArg).2.isError = true
        ∧ getDomainTools navArg = none
        ∧ listTools ((callTool handlers st "qbo_navigate" navArg).1)
            = .error undefinedToolsMsg) := by
  intro handlers st navArg h
  have hnone : getDomainTools navArg = none := by
    simp only [List.mem_cons, List.not_mem_nil, or_false, not_or] at h
    simp [getDomainTools, h.1, h.2.1, h.2.2.1, h.2.2.2.1, h.2.2.2.2]
  refine ⟨?_, ?_, ?_, hnone, ?_⟩ <;>
    simp [callTool, callToolBody, listTools, hnone]

/-- Witness for `navigate_stores_unvalidated_domain`: navigating to the
unknown domain string `"foo"` stores it and breaks the subsequent listing. -/
theorem navigate_stores_unvalidated_domain_witness :
    (callTool boomHandlers none "qbo_navigate" "foo").1 = some "foo"
    ∧ listTools ((callTool boomHandlers none "qbo_navigate" "foo").1)
        = .error undefinedToolsMsg :=
  ⟨(navigate_stores_unvalidated_domain boomHandlers none "foo" (by decide)).1,
   (navigate_stores_unvalidated_domain boomHandlers none "foo" (by decide)).2.2.2.2⟩

/-! ## Gateway credential extraction (`startHttpTransport`, `src/index.ts` 294–327)

In gateway mode, the `/mcp` branch of the HTTP request handler reads the two
credential headers; if either is absent (or empty — JavaScript truthiness) it
writes a 401 response and returns without ever reaching
`transport.handleRequest`, so no upstream call is made for that inbound call;
otherwise it resets the client, writes the credentials into the environment
and forwards the request to the transport. -/

/-- The two credential headers of one inbound `/mcp` request. -/
structure McpHeaders where
  accessTokenHeader : Option String
  realmIdHeader : Option String
deriving DecidableEq, Repr

/-- JavaScript falsiness of a header value: absent or empty. -/
def headerMissing : Option String → Bool
  | none => true
  | some s => s.isEmpty

/-- The `message` field of the 401 response body. -/
def gatewayMissingMsg : String :=
  "Gateway mode requires X-Qbo-Access-Token and X-Qbo-Realm-Id headers"

/-- The `required` field of the 401 response body. -/
def requiredHeaderNames : List String :=
  ["X-Qbo-Access-Token", "X-Qbo-Realm-Id"]

/-- What the `/mcp` branch does with one inbound request: a 401 rejection
carrying the response body fields, or forwarding to the transport after the
environment writes (the only path on which an upstream call can later
happen). -/
inductive McpGatewayOutcome where
  | unauthorized (status : Nat) (error message : String) (required : List String) :
      McpGatewayOutcome
  | forwarded (envAccessToken envRealmId : String) : McpGatewayOutcome
deriving DecidableEq, Repr

/-- The gateway-mode credential check of the `/mcp` branch
(`src/index.ts` 296–324). -/
def handleMcpGateway (h : McpHeaders) : McpGatewayOutcome :=
  if headerMissing h.accessTokenHeader || headerMissing h.realmIdHeader then
    .unauthorized 401 "Missing credentials" gatewayMissingMsg requiredHeaderNames
  else
    .forwarded (h.accessTokenHeader.getD "") (h.realmIdHeader.getD "")

/-- C4, counterexample: the 401 response does not name the specific missing
header — the response produced when only the realm header is missing is
identical to the one produced when only the token header is missing, and its
`required` list always names both headers (including the one that was
present), never just the missing one. -/
theorem gateway_rejection_does_not_name_missing_header :
    (handleMcpGateway ⟨some "tok", none⟩ = handleMcpGateway ⟨none, some "realm"⟩)
    ∧ (handleMcpGateway ⟨some "tok", none⟩
        = .unauthorized 401 "Missing credentials" gatewayMissingMsg
            ["X-Qbo-Access-Token", "X-Qbo-Realm-Id"])
    ∧ requiredHeaderNames ≠ ["X-Qbo-Realm-Id"] :=
  ⟨rfl, rfl, by decide⟩

/-- C4 (amended): under the per-request (gateway) policy, every inbound call
missing (or carrying empty) either credential header fails with a 401
missing-credentials response that names both required headers, and the
request is never forwarded to the transport, so no upstream call is made for
it. -/
theorem gateway_missing_header_rejected :
    ∀ h : McpHeaders,
      (headerMissing h.accessTokenHeader || headerMissing h.realmIdHeader) = true →
      (handleMcpGateway h
          = .unauthorized 401 "Missing credentials" gatewayMissingMsg
              requiredHeaderNames
        ∧ ∀ t r : String, handleMcpGateway h ≠ .forwarded t r) := by
  intro h hmiss
  have heq : handleMcpGateway h
      = .unauthorized 401 "Missing credentials" gatewayMissingMsg
          requiredHeaderNames := by
    simp [handleMcpGateway, hmiss]
  exact ⟨heq, fun t r hc => by rw [heq] at hc; exact McpGatewayOutcome.noConfusion hc⟩

/-- Witness for `gateway_missing_header_rejected`: a request with only the
access-token header present is rejected and not forwarded. -/
theorem gateway_missing_header_rejected_witness :
    handleMcpGateway ⟨some "tok2", none⟩
        = .unauthorized 401 "Missing credentials" gatewayMissingMsg
            requiredHeaderNames
    ∧ ∀ t r : String, handleMcpGateway ⟨some "tok2", none⟩ ≠ .forwarded t r :=
  gateway_missing_header_rejected ⟨some "tok2", none⟩ (by decide)

/-! ## Invoice list filter (`handleInvoiceTool`, invoices domain module)

The `qbo_invoices_list` case builds the SQL filter from optional `status`,
`startDate` and `endDate` arguments.  `today` is the
`new Date().toISOString().split("T")[0]` value, passed here as a parameter.
Conditions are pushed in source order and joined with `" AND "`; values are
substituted literally into single quotes with no escaping. -/

/-- The `conditions` array of the `qbo_invoices_list` case. -/
def invoiceListConditions (status startDate endDate : Option String)
    (today : String) : List String :=
  (match status with
   | some "Paid" => ["Balance = '0'"]
   | some "Unpaid" => ["Balance > '0'"]
   | some "Overdue" => ["Balance > '0' AND DueDate < '" ++ today ++ "'"]
   | _ => [])
  ++ (match startDate with
      | some s => if s.isEmpty then [] else ["TxnDate >= '" ++ s ++ "'"]
      | none => [])
  ++ (match endDate with
      | some s => if s.isEmpty then [] else ["TxnDate <= '" ++ s ++ "'"]
      | none => [])

/-- The full SQL of the `qbo_invoices_list` case: base query, `WHERE` clause
when any condition exists, and the pagination clause. -/
def buildInvoicesListSql (startPosition maxResults : Nat)
    (status startDate endDate : Option String) (today : String) : String :=
  let conditions := invoiceListConditions status startDate endDate today
  let withWhere :=
    if conditions.length > 0 then
      "SELECT * FROM Invoice" ++ " WHERE " ++ joinStr " AND " conditions
    else
      "SELECT * FROM Invoice"
  withWhere ++ " STARTPOSITION " ++ toString startPosition ++ " MAXRESULTS "
    ++ toString maxResults

/-- C9: `qbo_invoices_list` with `status = "Overdue"` builds a filter holding
the positive-balance condition and the due-date-before-today condition joined
by `AND`; each optional condition is rendered as `field operator 'value'` with
the value substituted literally — quote characters in the value are not
escaped, and a further optional condition is appended with `AND`. -/
theorem invoices_list_overdue_filter :
    (∀ today : String,
        buildInvoicesListSql 1 100 (some "Overdue") none none today
          = "SELECT * FROM Invoice WHERE Balance > '0' AND DueDate < '"
              ++ (today ++ ("'" ++ " STARTPOSITION 1 MAXRESULTS 100")))
    ∧ (buildInvoicesListSql 1 100 (some "Overdue") none none "2026-10-12"
        = "SELECT * FROM Invoice WHERE Balance > '0' AND DueDate < '2026-10-12' STARTPOSITION 1 MAXRESULTS 100")
    ∧ (buildInvoicesListSql 1 100 (some "Overdue") none none "x' OR '1'='1"
        = "SELECT * FROM Invoice WHERE Balance > '0' AND DueDate < 'x' OR '1'='1' STARTPOSITION 1 MAXRESULTS 100")
    ∧ (buildInvoicesListSql 1 100 (some "Overdue") (some "2024-01-01") none "2026-10-12"
        = "SELECT * FROM Invoice WHERE Balance > '0' AND DueDate < '2026-10-12' AND TxnDate >= '2024-01-01' STARTPOSITION 1 MAXRESULTS 100") := by
  refine ⟨?_, rfl, rfl, rfl⟩
  intro today
  have h0 : buildInvoicesListSql 1 100 (some "Overdue") none none today
      = "SELECT * FROM Invoice" ++ " WHERE "
          ++ ("Balance > '0' AND DueDate < '" ++ today ++ "'")
          ++ " STARTPOSITION " ++ toString (1 : Nat) ++ " MAXRESULTS "
          ++ toString (100 : Nat) := rfl
  rw [h0]
  simp only [String.append_assoc]
  rfl
